import Mathlib

/-!
Verification of the connection-and-request-correlation layer of the
htmlSummary-and-WFDL-pair-generator extension.

The definitions below are a shallow embedding of the JavaScript source:

* `WSState` and the functions `connect`, `disconnect`, `send`, `onopen`,
  `onclose`, `onerror`, `attemptReconnection`, `reconnectTimerFire`,
  `heartbeatTick` embed the `WebSocketManager` class
  (src/server/server.js, third concatenated unit).
* `handleValidationRequest`, `findDesignerTab`, `sendValidationResult`
  embed the `WFDLValidatorPopup` class (src/unnamed/part_001).
* `selectDesignerTabBackground` embeds the tab-selection logic of
  `handleGetWFDLRequest` (src/unnamed/part_000).
* `getWFDL` and `executeWfdlGet` embed the page-context extraction
  executors (src/unnamed/part_001 `getWFDL` and
  src/server/server.js `ValidationExecutor._executeWfdlGet`).

Asynchronous transport events (open / close / error / timeout) are modelled
as explicit step functions on the manager state; promise resolution versus
rejection is modelled with `Except`.
-/

namespace WfdlPairGen

/-- Configuration constant `CONFIG.websocket.maxReconnectAttempts` from
src/config.js. -/
def maxReconnectAttempts : Nat := 3

/-- Configuration constant `CONFIG.websocket.reconnectDelay` (ms) from
src/config.js. -/
def reconnectDelay : Nat := 2000

/-- Configuration constant `CONFIG.websocket.heartbeatInterval` (ms) from
src/config.js. -/
def heartbeatInterval : Nat := 30000

/-- Configuration constant `CONFIG.websocket.connectionTimeout` (ms) from
src/config.js. -/
def connectionTimeout : Nat := 5000

/-- The close status code used by `disconnect` (`this.ws.close(1000, ...)`)
and tested by the `onclose` handler (`event.code !== 1000`). -/
def cleanCloseCode : Nat := 1000

/-- State of a `WebSocketManager` instance (src/server/server.js).
Fields mirror the mutable fields of the class:
`wsAssigned` models `this.ws !== null`, `isConnected` models
`this.isConnected`, `reconnectAttempts` models `this.reconnectAttempts`,
`heartbeatOn` models `this.heartbeatInterval !== null`,
`pendingConnect` models `this.connectionPromise !== null`,
`reconnectScheduled` models a live `setTimeout` created by
`_attemptReconnection`, and `transportsOpened` counts evaluations of
`new WebSocket(...)`. -/
structure WSState where
  wsAssigned : Bool
  isConnected : Bool
  reconnectAttempts : Nat
  heartbeatOn : Bool
  pendingConnect : Bool
  reconnectScheduled : Bool
  transportsOpened : Nat
deriving DecidableEq, Repr

/-- The fresh state built by the `WebSocketManager` constructor. -/
def initialState : WSState :=
  { wsAssigned := false
    isConnected := false
    reconnectAttempts := 0
    heartbeatOn := false
    pendingConnect := false
    reconnectScheduled := false
    transportsOpened := 0 }

/-- What `connect()` returns: the previous successful outcome (`return true`
when `this.isConnected`), the pending promise
(`return this.connectionPromise`), or a freshly started attempt
(`this.connectionPromise = this._attemptConnection()`). -/
inductive ConnectReturn where
  | prevOutcome
  | pendingOutcome
  | newAttempt
deriving DecidableEq, Repr

/-- `WebSocketManager.connect` (src/server/server.js lines 495-508).
A new attempt constructs one `WebSocket` object synchronously inside
`_attemptConnection`, so the transport counter increments only on
the `newAttempt` branch. -/
def connect (s : WSState) : WSState × ConnectReturn :=
  if s.isConnected then (s, ConnectReturn.prevOutcome)
  else if s.pendingConnect then (s, ConnectReturn.pendingOutcome)
  else ({ s with
            pendingConnect := true
            wsAssigned := true
            transportsOpened := s.transportsOpened + 1 },
        ConnectReturn.newAttempt)

/-- `WebSocketManager._attemptReconnection` (src/server/server.js lines
740-756): bail out when `reconnectAttempts >= maxReconnectAttempts`,
otherwise increment the counter and schedule a delayed retry. -/
def attemptReconnection (s : WSState) : WSState :=
  if maxReconnectAttempts ≤ s.reconnectAttempts then s
  else { s with
           reconnectAttempts := s.reconnectAttempts + 1
           reconnectScheduled := true }

/-- The `onopen` handler of `_attemptConnection` (src/server/server.js
lines 614-631): mark connected, reset the attempt counter, clear the
pending promise, start the heartbeat interval. -/
def onopen (s : WSState) : WSState :=
  { s with
    isConnected := true
    reconnectAttempts := 0
    pendingConnect := false
    heartbeatOn := true }

/-- The `onclose` handler of `_attemptConnection` (src/server/server.js
lines 637-662): mark disconnected, clear the pending promise and the
heartbeat interval, then call `_attemptReconnection` exactly when the
close code differs from 1000. -/
def onclose (s : WSState) (code : Nat) : WSState :=
  let s1 := { s with
                isConnected := false
                pendingConnect := false
                heartbeatOn := false }
  if code ≠ cleanCloseCode then attemptReconnection s1 else s1

/-- The `onerror` handler of `_attemptConnection` (src/server/server.js
lines 664-674): mark disconnected and clear the pending promise.
The source does not clear `heartbeatInterval` here. -/
def onerror (s : WSState) : WSState :=
  { s with isConnected := false, pendingConnect := false }

/-- `WebSocketManager.disconnect` (src/server/server.js lines 513-531).
When not connected (or no transport assigned) the call only logs and
returns. Otherwise it clears the heartbeat, requests a close of the
transport with the clean status code (returned as the second component;
the matching close event arrives later), and clears the connected flag
and the pending promise. -/
def disconnect (s : WSState) : WSState × Option Nat :=
  if s.isConnected = false ∨ s.wsAssigned = false then (s, none)
  else ({ s with
            heartbeatOn := false
            isConnected := false
            pendingConnect := false },
        some cleanCloseCode)

/-- `WebSocketManager.send` (src/server/server.js lines 538-553):
return false when not connected or no transport; otherwise serialize and
transmit inside a try/catch, returning false when the transmission throws.
The second component lists the frames actually passed to the transport. -/
def send {α : Type} (s : WSState) (transmitOk : Bool) (msg : α) :
    Bool × List α :=
  if s.isConnected = false ∨ s.wsAssigned = false then (false, [])
  else if transmitOk then (true, [msg]) else (false, [])

/-- The callback fired by the reconnection `setTimeout`
(src/server/server.js lines 749-755): when still not connected, call
`connect()` (rejections of the returned promise are caught and logged). -/
def reconnectTimerFire (s : WSState) : WSState :=
  let s0 := { s with reconnectScheduled := false }
  if s0.isConnected then s0 else (connect s0).1

/-- Frames the manager itself sends (`_registerExtension` and
`_startHeartbeat`). -/
inductive MgrFrame where
  | register (extId : String)
  | heartbeat (extId : String)
deriving DecidableEq, Repr

/-- One firing of the heartbeat interval callback
(src/server/server.js lines 699-709): the callback exists only while the
interval is scheduled, checks `this.isConnected`, and sends a heartbeat
frame through `send`. Returns the frames passed to the transport. -/
def heartbeatTick (s : WSState) (transmitOk : Bool) (extId : String) :
    List MgrFrame :=
  if s.heartbeatOn then
    if s.isConnected then (send s transmitOk (MgrFrame.heartbeat extId)).2
    else []
  else []

/-- A connected state with a fresh attempt counter, as produced by a
successful first connect. -/
def connectedInit : WSState :=
  { wsAssigned := true
    isConnected := true
    reconnectAttempts := 0
    heartbeatOn := true
    pendingConnect := false
    reconnectScheduled := false
    transportsOpened := 1 }

/-- One unclean-close round: the close event (a non-1000 code, e.g. 1006)
is processed, and when that scheduled a reconnection the timer then fires
and starts the next attempt. -/
def uncleanCloseCycle (s : WSState) : WSState :=
  let s1 := onclose s 1006
  if s1.reconnectScheduled then reconnectTimerFire s1 else s1

/-- State after `n` consecutive unclean closes, each followed by its
scheduled automatic reconnection attempt (when one was scheduled). -/
def afterUncleanCloses : Nat → WSState → WSState
  | 0, s => s
  | n + 1, s => afterUncleanCloses n (uncleanCloseCycle s)

/-- The event that settles the promise of a single
`_attemptConnection` call: the handshake opens, the transport closes
with a code before opening, the `onerror` handler fires, the connect
timeout elapses, or the `WebSocket` constructor throws. -/
inductive AttemptEvent where
  | openEv
  | closeEv (code : Nat)
  | errorEv (reason : String)
  | timeoutEv
  | ctorThrow (reason : String)
deriving DecidableEq, Repr

/-- How the promise returned by `_attemptConnection`
(src/server/server.js lines 599-681) is settled, per settling event:
`resolve(true)` in `onopen`, `resolve(false)` in `onclose`,
`reject(error)` in `onerror`, `reject(new Error(..))` in the timeout
callback, and `reject(error)` in the surrounding catch block.
`Except.ok` models resolution, `Except.error` models rejection. -/
def attemptConnectionOutcome : AttemptEvent → Except String Bool
  | AttemptEvent.openEv => Except.ok true
  | AttemptEvent.closeEv _ => Except.ok false
  | AttemptEvent.errorEv r => Except.error r
  | AttemptEvent.timeoutEv => Except.error "Connection timeout"
  | AttemptEvent.ctorThrow r => Except.error r

/-- An inbound structured message as used by the popup and manager:
`type`, the optional correlation fields `requestId` and `id` (`msgId`
here), and the uninterpreted payload. Absent JavaScript fields are `none`. -/
structure InboundMsg where
  type : String
  requestId : Option String
  msgId : Option String
  payload : Option String
deriving DecidableEq, Repr

/-- Raw data delivered to `_handleMessage`: either a payload on which
`JSON.parse` throws, or one that parses to a structured message. -/
inductive RawData where
  | malformed (raw : String)
  | frame (m : InboundMsg)
deriving DecidableEq, Repr

/-- `WebSocketManager._handleMessage` (src/server/server.js lines
715-735): parse the raw data inside a try/catch; on a parse error, log
and return (no field of the manager is touched); on success, log the
system kinds and emit the message to all `message` listeners. The
result is the unchanged state together with the list of messages
dispatched to subscribers. -/
def handleMessage (s : WSState) (d : RawData) : WSState × List InboundMsg :=
  match d with
  | RawData.malformed _ => (s, [])
  | RawData.frame m => (s, [m])

/-- JavaScript truthiness of an optional string: `undefined` and the
empty string are falsy, every other string is truthy. -/
def jsTruthy : Option String → Bool
  | none => false
  | some s => !(s == "")

/-- The JavaScript `a || b` operator on optional string values. -/
def jsOr (a b : Option String) : Option String :=
  if jsTruthy a then a else b

/-- A Chrome tab descriptor: the fields of `chrome.tabs.Tab` read by the
selection logic. -/
structure Tab where
  id : Nat
  url : String
  status : String
  discarded : Bool
  active : Bool
deriving DecidableEq, Repr

/-- Auxiliary check that `pat` occurs at the start of a suffix of the subject, written out on
character lists so that the kernel can evaluate it. -/
def charsLead : List Char → List Char → Bool
  | [], _ => true
  | _ :: _, [] => false
  | a :: as, b :: bs => a == b && charsLead as bs

/-- The JavaScript `String.prototype.includes` used by
`CONFIG.designerUrls.isDesignerPage`. -/
def strIncludes (s pat : String) : Bool :=
  (List.range (s.toList.length + 1)).any
    (fun i => charsLead pat.toList (s.toList.drop i))

/-- `CONFIG.designerUrls.isDesignerPage` (src/config.js lines 31-35):
a URL is a designer page when it contains one of the three designer
host fragments. -/
def isDesignerPage (url : String) : Bool :=
  strIncludes url ".design.webflow.com" ||
  strIncludes url ".design.wfdev.io" ||
  strIncludes url ".wfdev.io"

/-- The filter applied to the pattern-query result in
`findDesignerTab` (src/unnamed/part_001 lines 302-306) and in
`handleGetWFDLRequest` (src/unnamed/part_000 lines 81-85): fully
loaded, not discarded, and on a designer page. -/
def qualifiesTab (t : Tab) : Bool :=
  t.status == "complete" && !t.discarded && isDesignerPage t.url

/-- The fallback branch of `WFDLValidatorPopup.findDesignerTab`
(src/unnamed/part_001 lines 292-314), reached when the active tab is
not a designer page: fail when the pattern query returned nothing, else
filter for loaded tabs and take the first, failing when none is left.
`designerTabs` models the result of
`chrome.tabs.query({url: CONFIG.designerUrls.patterns})`. -/
def findDesignerTabFallback (designerTabs : List Tab) : Except String Nat :=
  if designerTabs.length = 0 then
    Except.error "No Webflow Designer tabs found - validation requires Designer page"
  else
    match designerTabs.filter qualifiesTab with
    | [] => Except.error "No loaded Designer tabs found - please refresh Designer page"
    | t :: _ => Except.ok t.id

/-- `WFDLValidatorPopup.findDesignerTab` (src/unnamed/part_001 lines
283-315): when the active tab of the current window exists and its URL
is a designer page, return it immediately; otherwise run the fallback
scan over the pattern-query result. -/
def findDesignerTab (activeTab : Option Tab) (designerTabs : List Tab) :
    Except String Nat :=
  match activeTab with
  | some t =>
      if isDesignerPage t.url then Except.ok t.id
      else findDesignerTabFallback designerTabs
  | none => findDesignerTabFallback designerTabs

/-- Tab selection inside `handleGetWFDLRequest` (src/unnamed/part_000
lines 71-92): fail when the pattern query returned nothing, filter for
loaded tabs, fail when none qualifies, and otherwise prefer the active
tab among the qualifying ones, defaulting to the first qualifying
tab (`loadedTabs.find(tab => tab.active) || loadedTabs[0]`). -/
def selectDesignerTabBackground (designerTabs : List Tab) :
    Except String Tab :=
  if designerTabs.length = 0 then
    Except.error "No Webflow Designer tabs found"
  else
    match designerTabs.filter qualifiesTab with
    | [] => Except.error "No loaded Designer tabs found - please refresh Designer page"
    | t :: ts => Except.ok ((List.find? (fun x => x.active) (t :: ts)).getD t)

/-- Modelled from the spec: the selection policy of spec section 4.3
step 2, which prefers the currently active candidate only when that
candidate fully qualifies (loaded, not discarded, matching the
allowed-origin pattern set), and otherwise picks the first qualifying
candidate in the returned order. Stated for comparison with
`findDesignerTab`, the function the source actually runs. -/
def selectionPolicySpec (activeTab : Option Tab) (candidates : List Tab) :
    Except String Nat :=
  match activeTab with
  | some t =>
      if qualifiesTab t then Except.ok t.id
      else
        match candidates.filter qualifiesTab with
        | [] => Except.error "no qualifying execution target"
        | q :: _ => Except.ok q.id
  | none =>
      match candidates.filter qualifiesTab with
      | [] => Except.error "no qualifying execution target"
      | q :: _ => Except.ok q.id

/-- The outgoing frame built by `WFDLValidatorPopup.sendValidationResult`
(src/unnamed/part_001 lines 322-333): a flat object
`{type, requestId, id, result}`; of the nested result object only the
fields relevant to the claims are kept. -/
structure OutFrame where
  type : String
  requestId : Option String
  extId : String
  resultSuccess : Bool
  resultError : Option String
deriving DecidableEq, Repr

/-- `WFDLValidatorPopup.sendValidationResult` (src/unnamed/part_001
lines 322-333) builds the response frame and passes it to
`wsManager.send`; a false return is only logged (the documented
send-failure drop). This function returns the frame handed to `send`. -/
def sendValidationResult (extId : String) (requestId : Option String)
    (success : Bool) (err : Option String) : OutFrame :=
  { type := "validation_result"
    requestId := requestId
    extId := extId
    resultSuccess := success
    resultError := err }

/-- `WFDLValidatorPopup.handleValidationRequest` (src/unnamed/part_001
lines 163-199). The asynchronous collaborators are passed as oracles:
`findTab` is the outcome of `findDesignerTab` and `exec` the outcome of
`executeDesignerValidation` on the chosen tab (`Except.error` models a
thrown error). On success the frame carries
`message.requestId || message.id`; in the catch block it carries
`message.requestId`. The result lists the frames passed to
`wsManager.send`, in order. -/
def handleValidationRequest (extId : String) (msg : InboundMsg)
    (findTab : Except String Nat) (exec : Nat → Except String String) :
    List OutFrame :=
  match findTab with
  | Except.error e =>
      [sendValidationResult extId msg.requestId false (some e)]
  | Except.ok tabId =>
      match exec tabId with
      | Except.error e =>
          [sendValidationResult extId msg.requestId false (some e)]
      | Except.ok _ =>
          [sendValidationResult extId (jsOr msg.requestId msg.msgId) true none]

/-- The result object produced by the page-context executors: a
`success` flag together with optional `data` and `error` fields. -/
structure ScriptResult where
  success : Bool
  data : Option String
  error : Option String
deriving DecidableEq, Repr

/-- The state of the page the extraction script runs against: the `wf`
object may be absent, may lack the export function, the export function
may throw with some message, or it may return data. `injectThrows`
models a synchronous failure of the DOM script injection itself,
caught by the outer try/catch of `getWFDL` (and by the whole-body
try/catch of `_executeWfdlGet`). -/
inductive PageWf where
  | absent
  | noExportFn
  | exportThrows (msg : String)
  | exportReturns (data : String)
  | injectThrows (msg : String)
deriving DecidableEq, Repr

/-- The flags left on `window` by the script that `getWFDL`
(src/unnamed/part_001 lines 490-551) injects into the page: the pair is
`(window.__wfdlValidationError, window.__wfdlValidationResult)`.
When `wf.exportTrainingData` is missing the script stores the fixed
message and throws; when the call throws, the wrapper stores
`error.message`; on success it stores the result. -/
def injectedScriptFlags : PageWf → Option String × Option String
  | PageWf.absent =>
      (some "wf.exportTrainingData not available in page context", none)
  | PageWf.noExportFn =>
      (some "wf.exportTrainingData not available in page context", none)
  | PageWf.exportThrows m => (some m, none)
  | PageWf.exportReturns d => (none, some d)
  | PageWf.injectThrows _ => (none, none)

/-- The standalone `getWFDL` function (src/unnamed/part_001 lines
490-551): inject the script, then test
`if (window.__wfdlValidationError)` — a JavaScript truthiness test, so
an empty stored message falls through to the success branch — and build
the `{success, data?, error?}` object; the outer catch maps a thrown
injection error to a message with a fixed first part. -/
def getWFDL : PageWf → ScriptResult
  | PageWf.injectThrows m =>
      { success := false, data := none,
        error := some ("JavaScript Error: " ++ m) }
  | p =>
      let flags := injectedScriptFlags p
      if jsTruthy flags.1 then
        { success := false, data := none, error := flags.1 }
      else
        { success := true, data := flags.2, error := none }

/-- `ValidationExecutor._executeWfdlGet` (src/server/server.js lines
368-392): the whole body sits in a try/catch; a missing
`wf.extractTrainingData` returns the fixed message, a throwing call (or
any other exception) returns a message with a fixed first part, and a successful call
returns the data. -/
def executeWfdlGet : PageWf → ScriptResult
  | PageWf.absent =>
      { success := false, data := none,
        error := some "wf.extractTrainingData not available in page context" }
  | PageWf.noExportFn =>
      { success := false, data := none,
        error := some "wf.extractTrainingData not available in page context" }
  | PageWf.exportThrows m =>
      { success := false, data := none,
        error := some ("get WFDL failed: " ++ m) }
  | PageWf.exportReturns d =>
      { success := true, data := some d, error := none }
  | PageWf.injectThrows m =>
      { success := false, data := none,
        error := some ("get WFDL failed: " ++ m) }

/-- Helper: appending to a non-empty string yields a non-empty string. -/
theorem string_append_ne_empty (a b : String) (h : a.length ≠ 0) :
    a ++ b ≠ "" := by
  intro hab
  apply h
  have hlen := congrArg String.length hab
  rw [String.length_append, String.length_empty] at hlen
  exact Nat.eq_zero_of_add_eq_zero_right hlen

/-- C1: for every inbound extraction request carrying a correlation id,
the popup router hands exactly one `validation_result` frame to `send`,
and that frame carries the original `requestId`, whatever the outcomes
of target resolution and sandbox execution. -/
theorem c1_router_single_response (extId : String) (msg : InboundMsg)
    (findTab : Except String Nat) (exec : Nat → Except String String)
    (r : String) (hreq : msg.requestId = some r) (hr : r ≠ "") :
    (handleValidationRequest extId msg findTab exec).map
      (fun f => (f.type, f.requestId)) = [("validation_result", some r)] := by
  unfold handleValidationRequest
  cases findTab with
  | error e => simp [sendValidationResult, hreq]
  | ok tabId =>
      cases hx : exec tabId with
      | error e => simp [hx, sendValidationResult, hreq]
      | ok d => simp [hx, sendValidationResult, jsOr, jsTruthy, hreq, hr]

/-- Concrete instance of the C1 theorem: a request with correlation id
r1 whose target resolution fails produces exactly the one failure frame
carrying r1. -/
theorem c1_router_single_response_witness :
    (InboundMsg.mk "wfdl_validation_request" (some "r1") none (some "x")).requestId
        = some "r1" ∧
    (handleValidationRequest "ext"
        (InboundMsg.mk "wfdl_validation_request" (some "r1") none (some "x"))
        (Except.error "No Webflow Designer tabs found - validation requires Designer page")
        (fun _ => Except.error "boom")).map (fun f => (f.type, f.requestId))
      = [("validation_result", some "r1")] :=
  ⟨rfl, c1_router_single_response "ext"
      (InboundMsg.mk "wfdl_validation_request" (some "r1") none (some "x"))
      (Except.error "No Webflow Designer tabs found - validation requires Designer page")
      (fun _ => Except.error "boom") "r1" rfl (by decide)⟩

/-- C3: while connected, `connect` returns the previous successful
outcome; while a connection attempt is pending, it returns that pending
outcome; in both cases the state is unchanged, and a new transport is
constructed exactly when neither holds. -/
theorem c3_connect_idempotent (s : WSState) :
    (s.isConnected = true → connect s = (s, ConnectReturn.prevOutcome)) ∧
    (s.isConnected = false → s.pendingConnect = true →
      connect s = (s, ConnectReturn.pendingOutcome)) ∧
    ((connect s).1.transportsOpened =
      if !s.isConnected && !s.pendingConnect then s.transportsOpened + 1
      else s.transportsOpened) := by
  unfold connect
  rcases s with ⟨ws, conn, att, hb, pend, sched, topen⟩
  cases conn <;> cases pend <;> simp

/-- Concrete instance of the C3 theorem: a second `connect` while
connected and one while pending both return the existing outcome and
leave the state (transport count included) unchanged. -/
theorem c3_connect_idempotent_witness :
    connect connectedInit = (connectedInit, ConnectReturn.prevOutcome) ∧
    connect { initialState with pendingConnect := true, wsAssigned := true }
      = ({ initialState with pendingConnect := true, wsAssigned := true },
         ConnectReturn.pendingOutcome) :=
  ⟨(c3_connect_idempotent connectedInit).1 rfl,
   (c3_connect_idempotent
      { initialState with pendingConnect := true, wsAssigned := true }).2.1
      rfl rfl⟩

/-- C4: `disconnect` while not connected is an observable no-op; while
connected it stops the heartbeat and requests a close with the clean
status code, and a close event carrying the clean code never schedules
a reconnection and never changes the attempt counter, whatever their
values. -/
theorem c4_disconnect_no_reconnect (s : WSState) :
    (s.isConnected = false ∨ s.wsAssigned = false → disconnect s = (s, none)) ∧
    (s.isConnected = true → s.wsAssigned = true →
      (disconnect s).2 = some cleanCloseCode ∧
      (disconnect s).1.heartbeatOn = false ∧
      (disconnect s).1.isConnected = false ∧
      (disconnect s).1.reconnectScheduled = s.reconnectScheduled) ∧
    ((onclose s cleanCloseCode).reconnectScheduled = s.reconnectScheduled ∧
     (onclose s cleanCloseCode).reconnectAttempts = s.reconnectAttempts) := by
  unfold disconnect onclose
  rcases s with ⟨ws, conn, att, hb, pend, sched, topen⟩
  cases conn <;> cases ws <;> simp [cleanCloseCode]

/-- Concrete instance of the C4 theorem: disconnecting from a fresh
(never-connected) state is a no-op, and disconnecting from a connected
state with an exhausted attempt counter stops the heartbeat, requests a
clean close, and that close schedules no reconnection. -/
theorem c4_disconnect_no_reconnect_witness :
    disconnect initialState = (initialState, none) ∧
    (disconnect { connectedInit with reconnectAttempts := 3 }).2
        = some cleanCloseCode ∧
    (disconnect { connectedInit with reconnectAttempts := 3 }).1.heartbeatOn
        = false ∧
    (onclose { connectedInit with reconnectAttempts := 3 }
        cleanCloseCode).reconnectScheduled = false :=
  ⟨(c4_disconnect_no_reconnect initialState).1 (Or.inl rfl),
   ((c4_disconnect_no_reconnect
       { connectedInit with reconnectAttempts := 3 }).2.1 rfl rfl).1,
   ((c4_disconnect_no_reconnect
       { connectedInit with reconnectAttempts := 3 }).2.1 rfl rfl).2.1,
   ((c4_disconnect_no_reconnect
       { connectedInit with reconnectAttempts := 3 }).2.2).1⟩

/-- C5: `send` always returns a boolean (it is a total function):
true exactly when connected with a transport and the transmission
succeeds, and the frames passed to the transport are exactly the one
message in that case and nothing otherwise — in particular nothing is
transmitted later, so no queueing occurs. -/
theorem c5_send_contract (s : WSState) (transmitOk : Bool) (msg : String) :
    (send s transmitOk msg).1 = (s.isConnected && s.wsAssigned && transmitOk) ∧
    (send s transmitOk msg).2 =
      (if s.isConnected && s.wsAssigned && transmitOk then [msg] else []) := by
  unfold send
  rcases s with ⟨ws, conn, att, hb, pend, sched, topen⟩
  cases conn <;> cases ws <;> cases transmitOk <;> simp

/-- C7: a malformed inbound frame is swallowed by `_handleMessage`,
leaving every field of the manager state unchanged and dispatching
nothing, and a well-formed frame processed immediately afterwards is
still dispatched to the message subscribers. -/
theorem c7_malformed_frame_isolation (s : WSState) (raw : String)
    (m : InboundMsg) :
    handleMessage s (RawData.malformed raw) = (s, []) ∧
    handleMessage (handleMessage s (RawData.malformed raw)).1 (RawData.frame m)
      = (s, [m]) :=
  ⟨rfl, rfl⟩

/-- C10: both page-context extraction executors are total functions into
the `{success, data?, error?}` shape (so no exception reaches the
caller), and whenever they report failure the error field holds a
non-empty string. -/
theorem c10_page_executor_total (p : PageWf) :
    ((getWFDL p).success = false → (getWFDL p).error.getD "" ≠ "") ∧
    ((executeWfdlGet p).success = false → (executeWfdlGet p).error.getD "" ≠ "") := by
  cases p with
  | absent => exact ⟨fun _ => by decide, fun _ => by decide⟩
  | noExportFn => exact ⟨fun _ => by decide, fun _ => by decide⟩
  | exportThrows m =>
      constructor
      · intro hs
        by_cases hm : m = ""
        · subst hm
          simp [getWFDL, injectedScriptFlags, jsTruthy] at hs
        · simp [getWFDL, injectedScriptFlags, jsTruthy, hm]
      · intro _
        simpa [executeWfdlGet] using
          string_append_ne_empty "get WFDL failed: " m (by decide)
  | exportReturns d =>
      constructor
      · intro hs
        simp [getWFDL, injectedScriptFlags, jsTruthy] at hs
      · intro hs
        simp [executeWfdlGet] at hs
  | injectThrows m =>
      constructor
      · intro _
        simpa [getWFDL] using
          string_append_ne_empty "JavaScript Error: " m (by decide)
      · intro _
        simpa [executeWfdlGet] using
          string_append_ne_empty "get WFDL failed: " m (by decide)

/-- C2 counterexample: with the configured limit of 3, the third
consecutive unclean close still schedules a further automatic connect
attempt (the close handler increments the counter from 2 to 3 and
schedules the retry), contradicting the claim that after exactly
`maxReconnectAttempts` consecutive unclean closes no further automatic
connect attempt is scheduled. -/
theorem c2_reconnect_bound_counterexample :
    maxReconnectAttempts = 3 ∧
    (onclose (afterUncleanCloses (maxReconnectAttempts - 1) connectedInit)
        1006).reconnectScheduled = true :=
  ⟨rfl, by decide⟩

/-- C2 amended: once the attempt counter has reached
`maxReconnectAttempts` — which happens after `maxReconnectAttempts + 1`
consecutive unclean closes — a further unclean close schedules no new
automatic connect attempt and leaves the counter unchanged; the counter
never decreases on a close, and of all the events only a successful
open resets it to 0. -/
theorem c2_reconnect_bound_amended :
    (∀ (s : WSState) (code : Nat),
        maxReconnectAttempts ≤ s.reconnectAttempts →
        (onclose s code).reconnectScheduled = s.reconnectScheduled ∧
        (onclose s code).reconnectAttempts = s.reconnectAttempts) ∧
    ((onclose (afterUncleanCloses maxReconnectAttempts connectedInit)
        1006).reconnectScheduled = false) ∧
    (∀ (s : WSState) (code : Nat),
        s.reconnectAttempts ≤ (onclose s code).reconnectAttempts) ∧
    (∀ s : WSState, (onerror s).reconnectAttempts = s.reconnectAttempts) ∧
    (∀ s : WSState, (disconnect s).1.reconnectAttempts = s.reconnectAttempts) ∧
    (∀ s : WSState, (connect s).1.reconnectAttempts = s.reconnectAttempts) ∧
    (∀ s : WSState,
        (reconnectTimerFire s).reconnectAttempts = s.reconnectAttempts) ∧
    (∀ s : WSState, (onopen s).reconnectAttempts = 0) := by
  refine ⟨?_, by decide, ?_, ?_, ?_, ?_, ?_, ?_⟩
  · intro s code h
    by_cases hc : code = cleanCloseCode <;>
      simp [onclose, attemptReconnection, hc, h]
  · intro s code
    by_cases hc : code = cleanCloseCode <;>
      by_cases hmax : maxReconnectAttempts ≤ s.reconnectAttempts <;>
        simp [onclose, attemptReconnection, hc, hmax, Nat.le_succ]
  · intro s; rfl
  · intro s; unfold disconnect; split <;> rfl
  · intro s; unfold connect; split <;> [rfl; skip]; split <;> rfl
  · intro s
    rcases s with ⟨ws, conn, att, hb, pend, sched, topen⟩
    cases conn <;> cases pend <;> simp [reconnectTimerFire, connect]
  · intro s; rfl

/-- Concrete instance of the C2 amended theorem: an unclean close with
the counter already at the limit leaves the scheduled flag and the
counter exactly as they were. -/
theorem c2_reconnect_bound_amended_witness :
    (onclose { connectedInit with reconnectAttempts := 3 }
        1006).reconnectScheduled = false ∧
    (onclose { connectedInit with reconnectAttempts := 3 }
        1006).reconnectAttempts = 3 :=
  c2_reconnect_bound_amended.1
    { connectedInit with reconnectAttempts := 3 } 1006 (by decide)

/-- An active designer-URL tab that is still loading (its `status` is
not `complete`). -/
def loadingActiveTab : Tab :=
  { id := 1
    url := "https://proj.design.webflow.com/design/site"
    status := "loading"
    discarded := false
    active := true }

/-- A fully loaded, non-active designer-URL tab. -/
def loadedBackgroundTab : Tab :=
  { id := 2
    url := "https://other.design.webflow.com/design/site"
    status := "complete"
    discarded := false
    active := false }

/-- C6 counterexample: the popup selector `findDesignerTab` prefers the
active tab on the URL-pattern test alone. With an active designer tab
that is still loading (so not fully qualifying) alongside a fully
qualifying background tab, the source picks the unqualified active tab
(id 1), while the claimed policy picks the first qualifying candidate
(id 2). -/
theorem c6_selection_counterexample :
    qualifiesTab loadingActiveTab = false ∧
    findDesignerTab (some loadingActiveTab)
        [loadingActiveTab, loadedBackgroundTab] = Except.ok 1 ∧
    selectionPolicySpec (some loadingActiveTab)
        [loadingActiveTab, loadedBackgroundTab] = Except.ok 2 :=
  ⟨by decide, rfl, rfl⟩

/-- C6 amended: the popup selector prefers the active tab whenever its
URL matches the designer pattern set, regardless of load or discard
state; only when the active tab does not match does it take the first
fully qualifying candidate, failing terminally when none qualifies. The
background selector in `handleGetWFDLRequest` does follow the claimed
policy: it picks an active qualifying candidate when one exists and the
first qualifying candidate otherwise, failing terminally when none
qualifies. -/
theorem c6_selection_amended :
    (∀ (act : Tab) (tabs : List Tab), isDesignerPage act.url = true →
        findDesignerTab (some act) tabs = Except.ok act.id) ∧
    (∀ (act : Tab) (tabs : List Tab) (t : Tab) (rest : List Tab),
        isDesignerPage act.url = false →
        tabs.filter qualifiesTab = t :: rest →
        findDesignerTab (some act) tabs = Except.ok t.id) ∧
    (∀ (act : Tab) (tabs : List Tab), isDesignerPage act.url = false →
        tabs.filter qualifiesTab = [] →
        (findDesignerTab (some act) tabs).isOk = false) ∧
    (∀ (tabs : List Tab) (t : Tab) (rest : List Tab),
        tabs.filter qualifiesTab = t :: rest →
        ∃ q : Tab, selectDesignerTabBackground tabs = Except.ok q ∧
          qualifiesTab q = true ∧
          (q.active = true ∨ (q = t ∧ ∀ p ∈ t :: rest, p.active = false))) ∧
    (∀ tabs : List Tab, tabs.filter qualifiesTab = [] →
        (selectDesignerTabBackground tabs).isOk = false) := by
  have hne : ∀ (tabs : List Tab) (t : Tab) (rest : List Tab),
      tabs.filter qualifiesTab = t :: rest → ¬ tabs.length = 0 := by
    intro tabs t rest hf hlen
    rw [List.length_eq_zero] at hlen
    subst hlen
    simp at hf
  refine ⟨?_, ?_, ?_, ?_, ?_⟩
  · intro act tabs h
    simp [findDesignerTab, h]
  · intro act tabs t rest h hf
    simp [findDesignerTab, h, findDesignerTabFallback, hne tabs t rest hf, hf]
  · intro act tabs h hf
    by_cases h0 : tabs.length = 0
    · simp [findDesignerTab, h, findDesignerTabFallback, h0, Except.isOk,
            Except.toBool]
    · simp [findDesignerTab, h, findDesignerTabFallback, h0, hf, Except.isOk,
            Except.toBool]
  · intro tabs t rest hf
    have hmem : ∀ p ∈ t :: rest, qualifiesTab p = true := by
      intro p hp
      have : p ∈ tabs.filter qualifiesTab := by rw [hf]; exact hp
      exact (List.mem_filter.mp this).2
    unfold selectDesignerTabBackground
    rw [if_neg (hne tabs t rest hf), hf]
    cases hq : List.find? (fun x => x.active) (t :: rest) with
    | none =>
        refine ⟨t, by simp [hq], hmem t (List.mem_cons_self t rest), Or.inr ⟨rfl, ?_⟩⟩
        intro p hp
        have := List.find?_eq_none.mp hq p hp
        simpa using this
    | some q =>
        refine ⟨q, by simp [hq], hmem q (List.mem_of_find?_eq_some hq), Or.inl ?_⟩
        simpa using List.find?_some hq
  · intro tabs hf
    by_cases h0 : tabs.length = 0
    · simp [selectDesignerTabBackground, h0, Except.isOk, Except.toBool]
    · simp [selectDesignerTabBackground, h0, hf, Except.isOk, Except.toBool]

/-- Concrete instance of the C6 amended theorem: the loading active tab
is selected by the popup on its URL alone even with no other tab, and
the background selector rejects a tab list whose only entry is not
fully loaded. -/
theorem c6_selection_amended_witness :
    findDesignerTab (some loadingActiveTab) [] = Except.ok 1 ∧
    (selectDesignerTabBackground [loadingActiveTab]).isOk = false :=
  ⟨c6_selection_amended.1 loadingActiveTab [] (by decide),
   c6_selection_amended.2.2.2.2 [loadingActiveTab] (by decide)⟩

/-- C8 counterexample: when the transport fires the error event, the
promise returned by `_attemptConnection` (and therefore by `connect()`)
is rejected, not resolved — `reject(error)` in the `onerror` handler —
contradicting the claim that connect() always resolves to its declared
outcome. -/
theorem c8_connect_rejects_counterexample :
    (attemptConnectionOutcome (AttemptEvent.errorEv "transport error")).isOk
      = false := rfl

/-- C8 amended: the promise of a connection attempt resolves (to true on
open, to false on a close) exactly when the settling event is the open
event or a close event; a transport error, the connect timeout, and a
constructor failure all reject it, and internal callers (the reconnect
timer, the popup) attach catch handlers for that case. -/
theorem c8_connect_outcome_amended (e : AttemptEvent) :
    (attemptConnectionOutcome e).isOk = true ↔
      e = AttemptEvent.openEv ∨ ∃ c, e = AttemptEvent.closeEv c := by
  cases e <;> simp [attemptConnectionOutcome, Except.isOk, Except.toBool]

/-- Concrete instance of the C8 amended theorem: the open event settles
the connect promise as resolved. -/
theorem c8_connect_outcome_amended_witness :
    (attemptConnectionOutcome AttemptEvent.openEv).isOk = true :=
  (c8_connect_outcome_amended AttemptEvent.openEv).mpr (Or.inl rfl)

/-- C9 counterexample: the `onerror` handler clears the connected flag
but does not clear the heartbeat interval, so immediately after a
transport error the connection is no longer Connected while the
heartbeat timer is still scheduled — contradicting the claim that the
timer is stopped on every transition out of Connected. -/
theorem c9_heartbeat_counterexample :
    (onerror connectedInit).isConnected = false ∧
    (onerror connectedInit).heartbeatOn = true :=
  ⟨rfl, rfl⟩

/-- C9 amended: while Connected the interval callback emits one
heartbeat frame through `send`; the interval is stopped by an explicit
disconnect and by every close event, but a transport error event alone
leaves it scheduled (it is cleared only by the following close event);
a tick of the dangling timer transmits nothing because the connected
flag is already false. -/
theorem c9_heartbeat_amended :
    (∀ (s : WSState) (transmitOk : Bool) (extId : String),
        s.heartbeatOn = true → s.isConnected = true → s.wsAssigned = true →
        transmitOk = true →
        heartbeatTick s transmitOk extId = [MgrFrame.heartbeat extId]) ∧
    (∀ (s : WSState) (code : Nat), (onclose s code).heartbeatOn = false) ∧
    (∀ s : WSState, s.isConnected = true → s.wsAssigned = true →
        (disconnect s).1.heartbeatOn = false) ∧
    (∀ s : WSState, (onerror s).heartbeatOn = s.heartbeatOn) ∧
    (∀ (s : WSState) (transmitOk : Bool) (extId : String),
        s.isConnected = false → heartbeatTick s transmitOk extId = []) := by
  refine ⟨?_, ?_, ?_, ?_, ?_⟩
  · intro s transmitOk extId hh hc hw hok
    simp [heartbeatTick, send, hh, hc, hw, hok]
  · intro s code
    by_cases hc : code = cleanCloseCode <;>
      by_cases hmax : maxReconnectAttempts ≤ s.reconnectAttempts <;>
        simp [onclose, attemptReconnection, hc, hmax]
  · intro s hc hw
    unfold disconnect
    rw [if_neg]
    simp [hc, hw]
  · intro s; rfl
  · intro s transmitOk extId hc
    simp [heartbeatTick, hc]

/-- Concrete instance of the C9 amended theorem: from a connected state
a tick emits the heartbeat frame, disconnecting stops the timer, and a
tick right after a transport error emits nothing. -/
theorem c9_heartbeat_amended_witness :
    heartbeatTick connectedInit true "ext" = [MgrFrame.heartbeat "ext"] ∧
    (disconnect connectedInit).1.heartbeatOn = false ∧
    heartbeatTick (onerror connectedInit) true "ext" = [] :=
  ⟨c9_heartbeat_amended.1 connectedInit true "ext" rfl rfl rfl rfl,
   c9_heartbeat_amended.2.2.1 connectedInit rfl rfl,
   c9_heartbeat_amended.2.2.2.2 (onerror connectedInit) true "ext" rfl⟩

/-- Concrete instance of the C10 theorem: a page whose export function
throws yields a failure with a non-empty error from the popup executor,
and a page without the `wf` object yields a failure with a non-empty
error from the background executor. -/
theorem c10_page_executor_total_witness :
    (getWFDL (PageWf.exportThrows "boom")).error.getD "" ≠ "" ∧
    (executeWfdlGet PageWf.absent).error.getD "" ≠ "" :=
  ⟨(c10_page_executor_total (PageWf.exportThrows "boom")).1 (by decide),
   (c10_page_executor_total PageWf.absent).2 (by decide)⟩

end WfdlPairGen
